import Mathlib

/-!
Verification development for the Renesas R-Switch para-virtualized network
backend driver (drivers/net/ethernet/renesas/rswitch_xenback.c).

The driver's control-plane functions are embedded shallowly:

* xenbus states are the inductive type XBState;
* the per-device context struct rswitch_vmq_back_info is the structure
  BackInfo (dev->state, the state published via xenbus_switch_state, is
  carried in the same structure for convenience);
* externally observable side effects (xenbus_switch_state, WARN_ON,
  xenbus_dev_fatal, unbind_from_irqhandler, notify_remote_via_evtchn,
  rswitch_gwca_get/put, register/unregister calls) are recorded as an
  Event trace;
* results of external collaborators (xenbus_gather, evtchn binds, the
  chain pool, xenbus transactions) are supplied by environment records,
  one field per call site, so every control path of the C code is
  reachable in the model.
-/

set_option autoImplicit false

namespace RswitchXenback

/-- The xenbus state enumeration (enum xenbus_state). -/
inductive XBState where
  | Unknown
  | Initialising
  | InitWait
  | Initialised
  | Connected
  | Closing
  | Closed
  | Reconfiguring
  | Reconfigured
deriving DecidableEq

/-- A DMA descriptor chain handle (struct rswitch_gwca_chain), reduced to the
fields this driver reads or writes: pool index, direction tag, owner id. -/
structure Chain where
  index : Nat
  dir_tx : Bool
  osid : Nat
deriving DecidableEq

/-- The local net device context (struct rswitch_device), reduced to the
fields this driver touches: the remote chain id recorded at connect time and
the index of the rdev's own rx chain (published as remote-chain-id). -/
structure RDev where
  remote_chain : Int
  rx_chain_index : Nat
deriving DecidableEq

/-- struct rswitch_vmq_back_info, together with dev->state (the state last
published through xenbus_switch_state). irq value 0 is the unbound
sentinel, exactly as in the C code (kzalloc zero-fills, disconnect resets
to 0). -/
structure BackInfo where
  state : XBState
  frontend_state : XBState
  tx_chain : Option Chain
  rx_chain : Option Chain
  tx_evtchn : Nat
  rx_evtchn : Nat
  tx_irq : Int
  rx_irq : Int
  osid : Nat
  if_num : Nat
  rdev : Option RDev
deriving DecidableEq

/-- Observable side effects of the driver, in program order. -/
inductive Event where
  | warn
  | devFatal (err : Int)
  | switchState (s : XBState)
  | unbindIrq (irq : Int)
  | notifyEvtchn (ch : Nat)
  | chainRegister (idx : Nat) (rx : Bool)
  | gwcaGet (idx : Nat)
  | gwcaPut (idx : Nat)
  | ndevUnregister (slot : Nat)
  | deviceUnregister
  | kfreeBe
deriving DecidableEq

/-- TODO in rswitch_xenback.c: #define RSWITCH_BACK_BASE_INDEX 3 -/
def RSWITCH_BACK_BASE_INDEX : Nat := 3

/-- Index of an optional chain handle (dereference of a chain pointer). -/
def chainIndexOf : Option Chain → Nat
  | some c => c.index
  | none => 0

/-- rswitch_vmq_back_disconnect: unbind the rx handler if bound, then the tx
handler if bound, then clear both irq fields to 0. Returns the updated
context and the trace of unbind calls. -/
def rswitch_vmq_back_disconnect (be : BackInfo) : BackInfo × List Event :=
  let evs1 := if be.rx_irq ≠ 0 then [Event.unbindIrq be.rx_irq] else []
  let evs2 := if be.tx_irq ≠ 0 then [Event.unbindIrq be.tx_irq] else []
  ({ be with tx_irq := 0, rx_irq := 0 }, evs1 ++ evs2)

/-- Environment of one rswitch_vmq_back_connect call: the result of the
xenbus_gather of tx-evtch/rx-evtch (gatherErr = 0 means success and the two
channel numbers are gatherTx/gatherRx), and the return values of the two
bind_interdomain_evtchn_to_irqhandler_lateeoi calls (nonnegative = the
allocated irq, negative = error), in the order the code issues them. -/
structure ConnectEnv where
  gatherErr : Int
  gatherTx : Nat
  gatherRx : Nat
  bindTx : Int
  bindRx : Int
deriving DecidableEq

/-- rswitch_vmq_back_connect: read the two event channel numbers, bind the
tx handler then the rx handler, register the two chains with the datapath,
prime both channels with one notify each, and record the remote chain id.
Returns (return value, updated context, event trace). Mirrors the C control
flow: each failing step returns at once with xenbus_dev_fatal reported. -/
def rswitch_vmq_back_connect (env : ConnectEnv) (be : BackInfo) :
    Int × BackInfo × List Event :=
  if env.gatherErr ≠ 0 then
    (env.gatherErr, be, [Event.devFatal env.gatherErr])
  else
    let be1 := { be with tx_evtchn := env.gatherTx, rx_evtchn := env.gatherRx }
    if env.bindTx < 0 then
      (env.bindTx, be1, [Event.devFatal env.bindTx])
    else
      let be2 := { be1 with tx_irq := env.bindTx }
      if env.bindRx < 0 then
        (env.bindRx, be2, [Event.devFatal env.bindRx])
      else
        let be3 := { be2 with rx_irq := env.bindRx }
        let be4 := { be3 with
          rdev := be3.rdev.map
            (fun r => { r with remote_chain := Int.ofNat (chainIndexOf be3.rx_chain) }) }
        (0, be4,
          [Event.chainRegister (chainIndexOf be3.tx_chain) false,
           Event.chainRegister (chainIndexOf be3.rx_chain) true,
           Event.notifyEvtchn env.gatherTx,
           Event.notifyEvtchn env.gatherRx])

/-- rswitch_vmq_back_data_irq: called from the datapath with the chain that
fired; it notifies the remote end on both event channels of the owning
backend context (c->back_info). The chain argument is only used to reach
the context. -/
def rswitch_vmq_back_data_irq (c : Chain) (back_info : BackInfo) : List Event :=
  [Event.notifyEvtchn back_info.rx_evtchn, Event.notifyEvtchn back_info.tx_evtchn]

/-- Number of unbindIrq events in a trace. -/
def unbindCount (evs : List Event) : Nat :=
  evs.countP (fun e => match e with | Event.unbindIrq _ => true | _ => false)

/-- Outcome of one iteration of the while body of set_backend_state:
cont = the switch fell through to the bottom of the loop (possibly after a
WARN_ON with the state unchanged), halt = the function returned from inside
the body (the connect-failure return). -/
inductive SbsStep where
  | cont (be : BackInfo) (evs : List Event)
  | halt (be : BackInfo) (evs : List Event)
deriving DecidableEq

/-- One execution of the switch inside the while loop of set_backend_state,
assuming dev->state differs from the desired state. Each WARN_ON(1) default
arm leaves the state untouched and lets the loop continue, exactly as in the
C code (WARN_ON does not break out of the loop). -/
def sbs_body (env : ConnectEnv) (be : BackInfo) (desired : XBState) : SbsStep :=
  match be.state, desired with
  | XBState.Closed, XBState.InitWait
  | XBState.Closed, XBState.Connected =>
      SbsStep.cont { be with state := XBState.InitWait }
        [Event.switchState XBState.InitWait]
  | XBState.Closed, XBState.Closing =>
      SbsStep.cont { be with state := XBState.Closing }
        [Event.switchState XBState.Closing]
  | XBState.InitWait, XBState.Connected
  | XBState.Initialised, XBState.Connected =>
      let r := rswitch_vmq_back_connect env be
      if r.1 ≠ 0 then
        SbsStep.halt r.2.1 r.2.2
      else
        SbsStep.cont { r.2.1 with state := XBState.Connected }
          (r.2.2 ++ [Event.switchState XBState.Connected])
  | XBState.InitWait, XBState.Closing
  | XBState.InitWait, XBState.Closed
  | XBState.Initialised, XBState.Closing
  | XBState.Initialised, XBState.Closed =>
      SbsStep.cont { be with state := XBState.Closing }
        [Event.switchState XBState.Closing]
  | XBState.Connected, XBState.InitWait
  | XBState.Connected, XBState.Closing
  | XBState.Connected, XBState.Closed =>
      let d := rswitch_vmq_back_disconnect be
      SbsStep.cont { d.1 with state := XBState.Closing }
        (d.2 ++ [Event.switchState XBState.Closing])
  | XBState.Closing, XBState.InitWait
  | XBState.Closing, XBState.Connected
  | XBState.Closing, XBState.Closed =>
      SbsStep.cont { be with state := XBState.Closed }
        [Event.switchState XBState.Closed]
  | _, _ =>
      SbsStep.cont be [Event.warn]

/-- How a run of set_backend_state ended: done = the loop condition became
false (current state equals desired), returnedEarly = the connect-failure
return fired, outOfFuel = the given iteration budget was exhausted with the
loop still running. -/
inductive SbsStatus where
  | done
  | returnedEarly
  | outOfFuel
deriving DecidableEq

/-- set_backend_state, with an explicit iteration budget: while the current
state differs from the desired one, run the switch body; a halt outcome is
the in-body return. Returns (how the run ended, final context, trace). -/
def set_backend_state (env : ConnectEnv) :
    Nat → BackInfo → XBState → SbsStatus × BackInfo × List Event
  | 0, be, _ => (SbsStatus.outOfFuel, be, [])
  | Nat.succ n, be, desired =>
    if be.state = desired then (SbsStatus.done, be, [])
    else
      match sbs_body env be desired with
      | SbsStep.halt be1 evs => (SbsStatus.returnedEarly, be1, evs)
      | SbsStep.cont be1 evs =>
        let r := set_backend_state env n be1 desired
        (r.1, r.2.1, evs ++ r.2.2)

/-- Processing of a sequence of desired-state announcements, each handled by
one set_backend_state call (the xenbus otherend_changed callbacks are
serialized, so the calls compose sequentially). Each announcement carries
the connect environment its call would see. -/
def sbs_seq (fuel : Nat) :
    BackInfo → List (ConnectEnv × XBState) → BackInfo × List Event
  | be, [] => (be, [])
  | be, (env, d) :: rest =>
    let r := set_backend_state env fuel be d
    let r2 := sbs_seq fuel r.2.1 rest
    (r2.1, r.2.2 ++ r2.2)

/-- rswitch_vmq_frontend_changed: the otherend_changed callback. Records the
frontend state, then dispatches on it; the Closed arm falls through to the
Unknown arm when xenbus_dev_is_online(dev) is false, running
set_backend_state(dev, Closed) a second time and unregistering the device.
The default arm only reports -EINVAL (-22) through xenbus_dev_fatal. -/
def rswitch_vmq_frontend_changed (env : ConnectEnv) (online : Bool)
    (fuel : Nat) (be : BackInfo) (frontend_state : XBState) :
    SbsStatus × BackInfo × List Event :=
  let be0 := { be with frontend_state := frontend_state }
  match frontend_state with
  | XBState.Initialising => set_backend_state env fuel be0 XBState.InitWait
  | XBState.Initialised => set_backend_state env fuel be0 XBState.Connected
  | XBState.Connected => set_backend_state env fuel be0 XBState.Connected
  | XBState.Reconfiguring =>
      (SbsStatus.done, { be0 with state := XBState.Reconfigured },
       [Event.switchState XBState.Reconfigured])
  | XBState.Closing => set_backend_state env fuel be0 XBState.Closing
  | XBState.Closed =>
      let r := set_backend_state env fuel be0 XBState.Closed
      if online then r
      else
        let r2 := set_backend_state env fuel r.2.1 XBState.Closed
        (r2.1, r2.2.1, r.2.2 ++ r2.2.2 ++ [Event.deviceUnregister])
  | XBState.Unknown =>
      let r := set_backend_state env fuel be0 XBState.Closed
      (r.1, r.2.1, r.2.2 ++ [Event.deviceUnregister])
  | _ =>
      (SbsStatus.done, be0, [Event.devFatal (-22)])

/-- The three keys rswitch_vmq_back_probe publishes under dev->nodename. -/
inductive XsKey where
  | txChainId
  | rxChainId
  | remoteChainId
deriving DecidableEq

/-- A committed view of the backend's xenstore directory: the keys written so
far with their values. -/
abbrev Store := List (XsKey × Int)

/-- err value -EAGAIN, the conflict answer of xenbus_transaction_end. -/
def nEAGAIN : Int := -11

/-- xenbus_printf inside a transaction: on success the write is appended to
the transaction's pending write set, on failure the pending set is
unchanged. The result code of the call is supplied by the environment. -/
def xenbus_printf (res : Int) (pending : List (XsKey × Int)) (k : XsKey)
    (v : Int) : Int × List (XsKey × Int) :=
  if res ≠ 0 then (res, pending) else (0, pending ++ [(k, v)])

/-- Environment of one iteration of the transaction do/while loop in
rswitch_vmq_back_probe: return codes of xenbus_transaction_start, of the
three xenbus_printf calls, and of xenbus_transaction_end(xbt, 0). -/
structure TxnAttempt where
  startErr : Int
  w1 : Int
  w2 : Int
  w3 : Int
  endErr : Int
deriving DecidableEq

/-- The do/while transaction loop of rswitch_vmq_back_probe, publishing
tx-chain-id, rx-chain-id, remote-chain-id. attempt numbers the iterations so
the environment can answer each one; fuel bounds the iterations modelled
(the C loop itself has no bound). A committed transaction appends its whole
pending write set to the store at once; an aborted or conflicted one appends
nothing. Returns (err, final store, store snapshots after each commit). -/
def probe_txn_loop (txn : Nat → TxnAttempt) (tx rx remote : Int) :
    Nat → Nat → Store → Int × Store × List Store
  | _, 0, s => (nEAGAIN, s, [])
  | attempt, Nat.succ fuel, s =>
    let a := txn attempt
    if a.startErr ≠ 0 then (a.startErr, s, [])
    else
      let p1 := xenbus_printf a.w1 [] XsKey.txChainId tx
      if p1.1 ≠ 0 then (p1.1, s, [])
      else
        let p2 := xenbus_printf a.w2 p1.2 XsKey.rxChainId rx
        if p2.1 ≠ 0 then (p2.1, s, [])
        else
          let p3 := xenbus_printf a.w3 p2.2 XsKey.remoteChainId remote
          if p3.1 ≠ 0 then (p3.1, s, [])
          else if a.endErr = 0 then (0, s ++ p3.2, [s ++ p3.2])
          else if a.endErr = nEAGAIN then
            probe_txn_loop txn tx rx remote (attempt + 1) fuel s
          else (a.endErr, s, [])

/-- Environment of one rswitch_vmq_back_probe call: whether the kzalloc and
the rswitch_find_priv lookup succeed, the results of the two
rswitch_gwca_get calls (first = tx, second = rx), the values behind the
osid and if-num keys (none = key missing, so xenbus_read_unsigned answers
the default 255), the result of rswitch_vmq_back_ndev_register (none =
IS_ERR, with error code ndevErr), and the answers to the transaction
attempts. -/
structure ProbeEnv where
  allocOk : Bool
  privOk : Bool
  get1 : Option Chain
  get2 : Option Chain
  osid : Option Nat
  ifnum : Option Nat
  ndev : Option RDev
  ndevErr : Int
  txn : Nat → TxnAttempt

/-- Result of a probe call: return value, what dev_get_drvdata would now
yield (pointing at the final value of the backend struct when it was set),
the committed store, the store snapshots after each commit, and the event
trace. -/
structure ProbeOut where
  ret : Int
  drvdata : Option BackInfo
  store : Store
  snapshots : List Store
  events : List Event

/-- The zero-filled backend struct kzalloc produces (enum values 0 are
XenbusStateUnknown; dev->state of a probing xenbus device is
XenbusStateInitialising). -/
def be_init : BackInfo :=
  { state := XBState.Initialising, frontend_state := XBState.Unknown,
    tx_chain := none, rx_chain := none, tx_evtchn := 0, rx_evtchn := 0,
    tx_irq := 0, rx_irq := 0, osid := 0, if_num := 0, rdev := none }

/-- gwcaGet events for the chains actually handed out. -/
def getEvents (c : Option Chain) : List Event :=
  match c with
  | some ch => [Event.gwcaGet ch.index]
  | none => []

/-- The fail label of rswitch_vmq_back_probe: put the rx chain if present,
then the tx chain if present. -/
def probe_fail_events (be : BackInfo) : List Event :=
  (match be.rx_chain with
   | some c => [Event.gwcaPut c.index]
   | none => []) ++
  (match be.tx_chain with
   | some c => [Event.gwcaPut c.index]
   | none => [])

/-- rswitch_vmq_back_probe with an explicit environment and a fuel bound for
the transaction loop. Mirrors the C control flow, including its asymmetries:
dev_set_drvdata runs after the chain checks and is never undone, the
osid/if-num reads fall back to the default 255 instead of failing, the
ndev-register failure path returns without the fail-label cleanup, and no
path frees the allocated struct. -/
def rswitch_vmq_back_probe (env : ProbeEnv) (fuel : Nat) : ProbeOut :=
  if ¬ env.allocOk then
    { ret := -12, drvdata := none, store := [], snapshots := [],
      events := [Event.devFatal (-12)] }
  else if ¬ env.privOk then
    { ret := -19, drvdata := none, store := [], snapshots := [],
      events := [Event.devFatal (-19)] }
  else
    let be1 := { be_init with tx_chain := env.get1, rx_chain := env.get2 }
    let acq := getEvents env.get1 ++ getEvents env.get2
    if env.get2.isNone ∨ env.get1.isNone then
      { ret := -19, drvdata := none, store := [], snapshots := [],
        events := acq ++ probe_fail_events be1 }
    else
      let be2 := { be1 with
        tx_chain := be1.tx_chain.map (fun (c : Chain) => { c with dir_tx := true }),
        rx_chain := be1.rx_chain.map (fun (c : Chain) => { c with dir_tx := false }) }
      let osidv := env.osid.getD 255
      let be3 := { be2 with
        osid := osidv,
        tx_chain := be2.tx_chain.map (fun (c : Chain) => { c with osid := osidv }),
        rx_chain := be2.rx_chain.map (fun (c : Chain) => { c with osid := osidv }) }
      let be4 := { be3 with if_num := env.ifnum.getD 255 }
      match env.ndev with
      | none =>
        { ret := env.ndevErr, drvdata := some be4, store := [],
          snapshots := [], events := acq ++ [Event.devFatal env.ndevErr] }
      | some rdev =>
        let be5 := { be4 with rdev := some rdev }
        let t := probe_txn_loop env.txn
          (Int.ofNat (chainIndexOf be5.tx_chain))
          (Int.ofNat (chainIndexOf be5.rx_chain))
          (Int.ofNat rdev.rx_chain_index) 0 fuel []
        if t.1 ≠ 0 then
          { ret := t.1, drvdata := some be5, store := t.2.1,
            snapshots := t.2.2,
            events := acq ++ [Event.devFatal t.1] ++ probe_fail_events be5 }
        else
          { ret := 0, drvdata := some ({ be5 with state := XBState.InitWait }),
            store := t.2.1, snapshots := t.2.2,
            events := acq ++ [Event.switchState XBState.InitWait] }

/-- rswitch_vmq_back_remove: if an rdev is registered, disconnect and
unregister it and clear the field; then put the rx chain if present and the
tx chain if present; free the struct and clear drvdata. Returns the new
drvdata value (always none) and the trace. -/
def rswitch_vmq_back_remove (be : BackInfo) : Option BackInfo × List Event :=
  let r1 :=
    if be.rdev.isSome then
      let d := rswitch_vmq_back_disconnect be
      ({ d.1 with rdev := none },
       d.2 ++ [Event.ndevUnregister (RSWITCH_BACK_BASE_INDEX + be.if_num)])
    else (be, ([] : List Event))
  let evs2 :=
    match r1.1.rx_chain with
    | some c => [Event.gwcaPut c.index]
    | none => []
  let evs3 :=
    match r1.1.tx_chain with
    | some c => [Event.gwcaPut c.index]
    | none => []
  (none, r1.2 ++ evs2 ++ evs3 ++ [Event.kfreeBe])

/-- Number of gwcaPut events for pool index i in a trace. -/
def putCount (i : Nat) (evs : List Event) : Nat :=
  evs.countP (fun e => match e with | Event.gwcaPut j => j = i | _ => false)

/-- Number of gwcaGet events for pool index i in a trace. -/
def getCount (i : Nat) (evs : List Event) : Nat :=
  evs.countP (fun e => match e with | Event.gwcaGet j => j = i | _ => false)

/-- Number of gwcaPut events in a trace, over all indices. -/
def putCountAll (evs : List Event) : Nat :=
  evs.countP (fun e => match e with | Event.gwcaPut _ => true | _ => false)

/-- How many releases a remove call owes an optional chain field with pool
index i: one when the field holds a chain of that index, zero otherwise. -/
def chainHits (c : Option Chain) (i : Nat) : Nat :=
  match c with
  | some ch => if ch.index = i then 1 else 0
  | none => 0

/-- The edges of the section 4.1 transition table, as published-state
changes: current state to next state. -/
def tableEdge (s t : XBState) : Bool :=
  match s, t with
  | XBState.Closed, XBState.InitWait => true
  | XBState.Closed, XBState.Closing => true
  | XBState.InitWait, XBState.Connected => true
  | XBState.Initialised, XBState.Connected => true
  | XBState.InitWait, XBState.Closing => true
  | XBState.Initialised, XBState.Closing => true
  | XBState.Connected, XBState.Closing => true
  | XBState.Closing, XBState.Closed => true
  | _, _ => false

/-- The states a trace published, in order (the xenbus_switch_state calls). -/
def switchedStates (evs : List Event) : List XBState :=
  evs.filterMap (fun e => match e with | Event.switchState s => some s | _ => none)

/-- Whether a sequence of published states advances from s along table edges
only, one edge per published state. -/
def edgeChainOk : XBState → List XBState → Bool
  | _, [] => true
  | s, t :: r => tableEdge s t && edgeChainOk t r

/-- The last element of a published-state sequence, or s when empty. -/
def lastStateD (s : XBState) (l : List XBState) : XBState :=
  l.foldl (fun _ t => t) s

/-- Whether the switch of set_backend_state has a non-default arm for this
(current, desired) pair, that is, whether the section 4.1 table lists an
applicable edge. -/
def hasEdge (s d : XBState) : Bool :=
  match s, d with
  | XBState.Closed, XBState.InitWait => true
  | XBState.Closed, XBState.Connected => true
  | XBState.Closed, XBState.Closing => true
  | XBState.InitWait, XBState.Connected => true
  | XBState.InitWait, XBState.Closing => true
  | XBState.InitWait, XBState.Closed => true
  | XBState.Initialised, XBState.Connected => true
  | XBState.Initialised, XBState.Closing => true
  | XBState.Initialised, XBState.Closed => true
  | XBState.Connected, XBState.InitWait => true
  | XBState.Connected, XBState.Closing => true
  | XBState.Connected, XBState.Closed => true
  | XBState.Closing, XBState.InitWait => true
  | XBState.Closing, XBState.Connected => true
  | XBState.Closing, XBState.Closed => true
  | _, _ => false

/-- The backend states a live device moves through (the values
set_backend_state is invoked with, and the values it publishes). -/
def mainStates : List XBState :=
  [XBState.InitWait, XBState.Connected, XBState.Closing, XBState.Closed]

/-- The driver loop terminates: some iteration budget suffices for
set_backend_state to return. -/
def sbsTerminates (env : ConnectEnv) (be : BackInfo) (desired : XBState) : Prop :=
  ∃ n, (set_backend_state env n be desired).1 ≠ SbsStatus.outOfFuel

/-- Whether a store holds a key. -/
def hasKey (t : Store) (k : XsKey) : Bool :=
  t.any (fun p => p.1 = k)

/-- How many of the three published keys a store holds. -/
def keysPresent (t : Store) : Nat :=
  (if hasKey t XsKey.txChainId then 1 else 0) +
  (if hasKey t XsKey.rxChainId then 1 else 0) +
  (if hasKey t XsKey.remoteChainId then 1 else 0)

/-- Concrete context fixture: a backend in InitWait holding chains 1 (tx)
and 2 (rx) for owner 5, interface 2, with a registered rdev. -/
def beFix : BackInfo :=
  { state := XBState.InitWait, frontend_state := XBState.Unknown,
    tx_chain := some ⟨1, true, 5⟩, rx_chain := some ⟨2, false, 5⟩,
    tx_evtchn := 0, rx_evtchn := 0, tx_irq := 0, rx_irq := 0,
    osid := 5, if_num := 2, rdev := some ⟨-1, 9⟩ }

/-- Concrete context fixture: the connected counterpart of beFix, with both
handlers bound (tx irq 70, rx irq 71). -/
def beFixConn : BackInfo :=
  { beFix with
    state := XBState.Connected,
    tx_evtchn := 40, rx_evtchn := 41, tx_irq := 70, rx_irq := 71 }

/-- Connect environment fixture where every external call succeeds. -/
def envAllOk : ConnectEnv := ⟨0, 40, 41, 70, 71⟩

/-- Connect environment fixture where the gather succeeds, the tx bind
succeeds with irq 70, and the rx bind fails with -EINVAL. -/
def envRxBindFail : ConnectEnv := ⟨0, 40, 41, 70, -22⟩

/-- Transaction environment fixture: every attempt succeeds at once. -/
def txnAllOk : Nat → TxnAttempt := fun _ => ⟨0, 0, 0, 0, 0⟩

/-- Probe environment fixture: every external call succeeds; owner 5,
interface 2, chains 1 and 2, rdev rx chain 9. -/
def envProbeOk : ProbeEnv :=
  { allocOk := true, privOk := true, get1 := some ⟨1, false, 0⟩,
    get2 := some ⟨2, false, 0⟩, osid := some 5, ifnum := some 2,
    ndev := some ⟨-1, 9⟩, ndevErr := 0, txn := txnAllOk }

/-- Probe environment fixture where the local net device registration fails
with -ENOMEM after both chains were acquired. -/
def envNdevFail : ProbeEnv :=
  { envProbeOk with ndev := none, ndevErr := -12 }

/-- Probe environment fixture where the local net device registration fails
with -EINVAL after chains 3 and 4 were acquired for owner 7. -/
def envNdevFail2 : ProbeEnv :=
  { allocOk := true, privOk := true, get1 := some ⟨3, false, 0⟩,
    get2 := some ⟨4, false, 0⟩, osid := some 7, ifnum := some 1,
    ndev := none, ndevErr := -22, txn := txnAllOk }

/-- Probe environment fixture where the osid key is missing from the
frontend's xenstore directory and everything else succeeds. -/
def envOsidMissing : ProbeEnv :=
  { envProbeOk with osid := none }

/-- Probe environment fixture where every transaction attempt fails with a
non-conflict error (-EACCES), everything before succeeding. -/
def envTxnFail : ProbeEnv :=
  { allocOk := true, privOk := true, get1 := some ⟨1, false, 0⟩,
    get2 := some ⟨2, false, 0⟩, osid := some 5, ifnum := some 2,
    ndev := some ⟨-1, 9⟩, ndevErr := 0,
    txn := fun _ => ⟨0, 0, 0, 0, -13⟩ }

/-- Transaction environment fixture: the first attempt ends in a conflict
(-EAGAIN), every later attempt succeeds. -/
def txnConflictFirst : Nat → TxnAttempt :=
  fun a => if a = 0 then ⟨0, 0, 0, 0, nEAGAIN⟩ else ⟨0, 0, 0, 0, 0⟩

/-- Neutral connect environment fixture (all answers zero). -/
def envNeutral : ConnectEnv := ⟨0, 0, 0, 0, 0⟩

/-- Context fixture: a freshly probed backend parked in Closed. -/
def beClosedFix : BackInfo :=
  { be_init with state := XBState.Closed }

/-- C9: rswitch_vmq_back_disconnect unbinds the rx handler if bound, then
the tx handler if bound, clears both irq fields to the unbound sentinel 0,
and never fails; a second consecutive call finds both fields unbound,
performs no unbind action, and leaves the context unchanged (Disconnect
composed with Disconnect has the observable effect of one Disconnect). -/
theorem C9_disconnect_idempotent :
    ∀ be : BackInfo,
      rswitch_vmq_back_disconnect (rswitch_vmq_back_disconnect be).1 =
        ((rswitch_vmq_back_disconnect be).1, ([] : List Event)) ∧
      (rswitch_vmq_back_disconnect be).1.tx_irq = 0 ∧
      (rswitch_vmq_back_disconnect be).1.rx_irq = 0 ∧
      (be.rx_irq ≠ 0 → be.tx_irq ≠ 0 →
        (rswitch_vmq_back_disconnect be).2 =
          [Event.unbindIrq be.rx_irq, Event.unbindIrq be.tx_irq]) := by
  intro be
  refine ⟨?_, rfl, rfl, ?_⟩
  · simp [rswitch_vmq_back_disconnect]
  · intro h1 h2
    simp [rswitch_vmq_back_disconnect, h1, h2]

/-- Witness for C9 on the connected fixture (irqs 71 and 70 bound). -/
theorem C9_witness :
    rswitch_vmq_back_disconnect (rswitch_vmq_back_disconnect beFixConn).1 =
      ((rswitch_vmq_back_disconnect beFixConn).1, ([] : List Event)) ∧
    (rswitch_vmq_back_disconnect beFixConn).2 =
      [Event.unbindIrq 71, Event.unbindIrq 70] :=
  ⟨(C9_disconnect_idempotent beFixConn).1,
   (C9_disconnect_idempotent beFixConn).2.2.2 (by decide) (by decide)⟩

/-- C10: every invocation of rswitch_vmq_back_data_irq signals both of the
attachment's notification channels - the rx event channel and the tx event
channel - and its behaviour does not depend on which chain triggered it. -/
theorem C10_data_irq_signals_both_channels :
    ∀ (c : Chain) (back_info : BackInfo),
      Event.notifyEvtchn back_info.rx_evtchn ∈
        rswitch_vmq_back_data_irq c back_info ∧
      Event.notifyEvtchn back_info.tx_evtchn ∈
        rswitch_vmq_back_data_irq c back_info ∧
      ∀ c2 : Chain,
        rswitch_vmq_back_data_irq c back_info =
          rswitch_vmq_back_data_irq c2 back_info := by
  intro c back_info
  refine ⟨?_, ?_, fun c2 => rfl⟩ <;> simp [rswitch_vmq_back_data_irq]

/-- C2 counterexample: with a successful gather (channels 40/41), a tx bind
that succeeds with irq 70 and an rx bind that fails with -EINVAL, connect
returns the error while the tx handler is still bound (tx_irq = 70,
rx_irq = 0) and no unbind call was issued: the claimed both-bound-or-both-
unbound property is violated at this return. -/
theorem C2_counterexample :
    (rswitch_vmq_back_connect envRxBindFail beFix).1 = -22 ∧
    (rswitch_vmq_back_connect envRxBindFail beFix).2.1.tx_irq = 70 ∧
    (rswitch_vmq_back_connect envRxBindFail beFix).2.1.rx_irq = 0 ∧
    unbindCount (rswitch_vmq_back_connect envRxBindFail beFix).2.2 = 0 := by
  decide

/-- C2 (amended): when the gather succeeds, the tx bind succeeds and the rx
bind then fails, rswitch_vmq_back_connect returns the rx bind error with the
tx handler left bound (tx_irq holds the bound irq) and the rx handler
untouched; no unbind call is issued before the return, so a half-bound
state does survive the failed Connect. -/
theorem C2_rx_bind_failure_keeps_tx_bound :
    ∀ (env : ConnectEnv) (be : BackInfo),
      env.gatherErr = 0 → 0 ≤ env.bindTx → env.bindRx < 0 →
      (rswitch_vmq_back_connect env be).1 = env.bindRx ∧
      (rswitch_vmq_back_connect env be).2.1.tx_irq = env.bindTx ∧
      (rswitch_vmq_back_connect env be).2.1.rx_irq = be.rx_irq ∧
      unbindCount (rswitch_vmq_back_connect env be).2.2 = 0 := by
  intro env be h0 h1 h2
  simp [rswitch_vmq_back_connect, h0, not_lt.mpr h1, h2, unbindCount]

/-- Witness for the amended C2 on the rx-bind-failure fixture. -/
theorem C2_witness :
    (rswitch_vmq_back_connect envRxBindFail beFix).1 = envRxBindFail.bindRx ∧
    (rswitch_vmq_back_connect envRxBindFail beFix).2.1.tx_irq =
      envRxBindFail.bindTx ∧
    (rswitch_vmq_back_connect envRxBindFail beFix).2.1.rx_irq = beFix.rx_irq ∧
    unbindCount (rswitch_vmq_back_connect envRxBindFail beFix).2.2 = 0 :=
  C2_rx_bind_failure_keeps_tx_bound envRxBindFail beFix
    (by decide) (by decide) (by decide)

/-- C5 counterexample: with the osid key missing from the peer's xenstore
directory and every other step succeeding, probe succeeds (returns 0),
releases no chain, and proceeds with the default owner id 255 - it does not
treat the missing key as fatal, release the chains, or abort. -/
theorem C5_counterexample :
    (rswitch_vmq_back_probe envOsidMissing 1).ret = 0 ∧
    putCountAll (rswitch_vmq_back_probe envOsidMissing 1).events = 0 ∧
    ((rswitch_vmq_back_probe envOsidMissing 1).drvdata.map
      (fun b => b.osid)) = some 255 := by
  decide

/-- C5 (amended): a missing (or unparseable) osid key is not fatal:
xenbus_read_unsigned falls back to the default 255, the probe proceeds,
releases no chain because of it, and a fully successful attach records
owner id 255. -/
theorem C5_missing_osid_key_uses_default :
    ∀ (env : ProbeEnv) (f : Nat),
      env.allocOk = true → env.privOk = true →
      env.get1.isSome = true → env.get2.isSome = true →
      env.osid = none → env.ndev.isSome = true →
      env.txn 0 = ⟨0, 0, 0, 0, 0⟩ →
      (rswitch_vmq_back_probe env (f + 1)).ret = 0 ∧
      putCountAll (rswitch_vmq_back_probe env (f + 1)).events = 0 ∧
      ((rswitch_vmq_back_probe env (f + 1)).drvdata.map
        (fun b => b.osid)) = some 255 := by
  intro env f hA hP h1 h2 hO hN hT
  obtain ⟨c1, hc1⟩ := Option.isSome_iff_exists.mp h1
  obtain ⟨c2, hc2⟩ := Option.isSome_iff_exists.mp h2
  obtain ⟨rd, hrd⟩ := Option.isSome_iff_exists.mp hN
  simp [rswitch_vmq_back_probe, hA, hP, hc1, hc2, hO, hrd,
    probe_txn_loop, hT, xenbus_printf, putCountAll, getEvents]

/-- Witness for the amended C5 on the missing-osid fixture. -/
theorem C5_witness :
    (rswitch_vmq_back_probe envOsidMissing (0 + 1)).ret = 0 ∧
    putCountAll (rswitch_vmq_back_probe envOsidMissing (0 + 1)).events = 0 ∧
    ((rswitch_vmq_back_probe envOsidMissing (0 + 1)).drvdata.map
      (fun b => b.osid)) = some 255 :=
  C5_missing_osid_key_uses_default envOsidMissing 0
    (by decide) (by decide) (by decide) (by decide) rfl (by decide) rfl

/-- C3 counterexample: when the local device registration fails with -ENOMEM
after both chains (indices 1 and 2) were acquired, probe returns the error
without releasing either chain, and the per-device driver-data pointer still
holds the failed attachment - the claimed full rollback and unreachability
do not happen on this path. -/
theorem C3_counterexample :
    (rswitch_vmq_back_probe envNdevFail 1).ret = -12 ∧
    (rswitch_vmq_back_probe envNdevFail 1).drvdata.isSome = true ∧
    putCountAll (rswitch_vmq_back_probe envNdevFail 1).events = 0 ∧
    getCount 1 (rswitch_vmq_back_probe envNdevFail 1).events = 1 ∧
    getCount 2 (rswitch_vmq_back_probe envNdevFail 1).events = 1 := by
  decide

/-- C4 counterexample: when the local device registration fails with -EINVAL
after chains 3 and 4 were acquired, probe fails without releasing either
chain: each acquired chain was released zero times, not exactly once. -/
theorem C4_counterexample :
    (rswitch_vmq_back_probe envNdevFail2 1).ret = -22 ∧
    getCount 3 (rswitch_vmq_back_probe envNdevFail2 1).events = 1 ∧
    putCount 3 (rswitch_vmq_back_probe envNdevFail2 1).events = 0 ∧
    getCount 4 (rswitch_vmq_back_probe envNdevFail2 1).events = 1 ∧
    putCount 4 (rswitch_vmq_back_probe envNdevFail2 1).events = 0 := by
  decide

theorem connect_state_preserved (env : ConnectEnv) (be : BackInfo) :
    (rswitch_vmq_back_connect env be).2.1.state = be.state := by
  simp only [rswitch_vmq_back_connect]
  split_ifs <;> rfl

theorem connect_no_switch (env : ConnectEnv) (be : BackInfo) :
    switchedStates (rswitch_vmq_back_connect env be).2.2 = [] := by
  simp only [rswitch_vmq_back_connect]
  split_ifs <;> simp [switchedStates]

theorem connect_rdev_preserved (env : ConnectEnv) (be : BackInfo) :
    (rswitch_vmq_back_connect env be).2.1.rdev.isSome = be.rdev.isSome := by
  simp only [rswitch_vmq_back_connect]
  split_ifs <;> simp

theorem disconnect_no_switch (be : BackInfo) :
    switchedStates (rswitch_vmq_back_disconnect be).2 = [] := by
  simp only [rswitch_vmq_back_disconnect]
  split_ifs <;> simp [switchedStates]

theorem disconnect_rdev_preserved (be : BackInfo) :
    (rswitch_vmq_back_disconnect be).1.rdev = be.rdev := rfl

theorem switchedStates_append (l1 l2 : List Event) :
    switchedStates (l1 ++ l2) = switchedStates l1 ++ switchedStates l2 := by
  simp [switchedStates]

theorem switchedStates_single_switch (s : XBState) :
    switchedStates [Event.switchState s] = [s] := rfl

theorem switchedStates_single_warn :
    switchedStates [Event.warn] = [] := rfl

theorem lastStateD_append (s : XBState) (l1 l2 : List XBState) :
    lastStateD s (l1 ++ l2) = lastStateD (lastStateD s l1) l2 := by
  simp [lastStateD, List.foldl_append]

theorem edgeChainOk_append (s : XBState) (l1 l2 : List XBState) :
    edgeChainOk s (l1 ++ l2) =
      (edgeChainOk s l1 && edgeChainOk (lastStateD s l1) l2) := by
  induction l1 generalizing s with
  | nil => simp [edgeChainOk, lastStateD]
  | cons t r ih =>
    show edgeChainOk s ((t :: r) ++ l2) = _
    have h1 : lastStateD s (t :: r) = lastStateD t r := rfl
    simp only [List.cons_append, edgeChainOk, List.append_eq, ih t, h1,
      Bool.and_assoc]

/-- Characterization of one loop-body step of set_backend_state: a cont
outcome publishes only table edges and preserves rdev presence, a halt
outcome (the connect-failure return) publishes nothing and preserves the
state and rdev presence. -/
theorem sbs_body_spec (env : ConnectEnv) (be : BackInfo) (d : XBState) :
    match sbs_body env be d with
    | SbsStep.cont b e =>
        edgeChainOk be.state (switchedStates e) = true ∧
        lastStateD be.state (switchedStates e) = b.state ∧
        b.rdev.isSome = be.rdev.isSome
    | SbsStep.halt b e =>
        switchedStates e = [] ∧ b.state = be.state ∧
        b.rdev.isSome = be.rdev.isSome := by
  rcases hbe : be.state <;> rcases d <;>
    simp only [sbs_body, hbe] <;>
    first
      | (simp [switchedStates_append, disconnect_no_switch,
          disconnect_rdev_preserved, hbe, switchedStates_single_switch,
          switchedStates_single_warn, edgeChainOk, lastStateD, tableEdge]
         done)
      | (by_cases hc : (rswitch_vmq_back_connect env be).1 = 0 <;>
          simp [hc, switchedStates_append, connect_no_switch,
            connect_state_preserved, connect_rdev_preserved, hbe,
            switchedStates_single_switch, switchedStates_single_warn,
            edgeChainOk, lastStateD, tableEdge])

/-- Characterization of a whole set_backend_state run: its published-state
sequence follows the section 4.1 table from the initial state, its final
state is the last published state (or the initial one when nothing was
published), and rdev presence is preserved. -/
theorem sbs_run_spec (env : ConnectEnv) :
    ∀ (n : Nat) (be : BackInfo) (d : XBState),
      edgeChainOk be.state
        (switchedStates (set_backend_state env n be d).2.2) = true ∧
      lastStateD be.state
        (switchedStates (set_backend_state env n be d).2.2) =
        (set_backend_state env n be d).2.1.state ∧
      (set_backend_state env n be d).2.1.rdev.isSome = be.rdev.isSome := by
  intro n
  induction n with
  | zero =>
    intro be d
    simp [set_backend_state, switchedStates, edgeChainOk, lastStateD]
  | succ n ih =>
    intro be d
    by_cases hd : be.state = d
    · simp [set_backend_state, hd, switchedStates, edgeChainOk, lastStateD]
    · have hb := sbs_body_spec env be d
      cases hcase : sbs_body env be d with
      | cont b e =>
        rw [hcase] at hb
        have hr := ih b d
        have h1 :
            set_backend_state env (n + 1) be d =
              ((set_backend_state env n b d).1,
               (set_backend_state env n b d).2.1,
               e ++ (set_backend_state env n b d).2.2) := by
          simp [set_backend_state, hd, hcase]
        rw [h1]
        simp only [switchedStates_append, edgeChainOk_append,
          lastStateD_append]
        refine ⟨?_, ?_, ?_⟩
        · rw [hb.1, hb.2.1, hr.1]
          simp
        · rw [hb.2.1, hr.2.1]
        · rw [hr.2.2, hb.2.2]
      | halt b e =>
        rw [hcase] at hb
        have h1 :
            set_backend_state env (n + 1) be d =
              (SbsStatus.returnedEarly, b, e) := by
          simp [set_backend_state, hd, hcase]
        rw [h1]
        rw [hb.1]
        exact ⟨rfl, by simp [lastStateD, hb.2.1], hb.2.2⟩

/-- Characterization of a sequence of set_backend_state calls: the
concatenated published-state sequence follows the table from the initial
state. -/
theorem sbs_seq_spec (fuel : Nat) :
    ∀ (calls : List (ConnectEnv × XBState)) (be : BackInfo),
      edgeChainOk be.state
        (switchedStates (sbs_seq fuel be calls).2) = true ∧
      lastStateD be.state
        (switchedStates (sbs_seq fuel be calls).2) =
        (sbs_seq fuel be calls).1.state := by
  intro calls
  induction calls with
  | nil =>
    intro be
    simp [sbs_seq, switchedStates, edgeChainOk, lastStateD]
  | cons p rest ih =>
    intro be
    obtain ⟨env, d⟩ := p
    have hr := sbs_run_spec env fuel be d
    have hrest := ih (set_backend_state env fuel be d).2.1
    simp only [sbs_seq, switchedStates_append, edgeChainOk_append,
      lastStateD_append]
    constructor
    · rw [hr.1, hr.2.1, hrest.1]
      simp
    · rw [hr.2.1, hrest.2]

/-- C1: over any sequence of peer-announced desired states processed by
set_backend_state, the published state only ever changes along an edge of
the section 4.1 table (Closed to InitWait, Closed to Closing, InitWait or
Initialised to Connected, InitWait or Initialised to Closing, Connected to
Closing, Closing to Closed); and when the Connect action fails on the
InitWait/Initialised to Connected edge, the call returns at once with the
published state still at its pre-Connected value. -/
theorem C1_state_changes_follow_table :
    (∀ (fuel : Nat) (be : BackInfo) (calls : List (ConnectEnv × XBState)),
       edgeChainOk be.state
         (switchedStates (sbs_seq fuel be calls).2) = true) ∧
    (∀ (env : ConnectEnv) (be : BackInfo) (n : Nat),
       be.state = XBState.InitWait ∨ be.state = XBState.Initialised →
       (rswitch_vmq_back_connect env be).1 ≠ 0 →
       (set_backend_state env (n + 1) be XBState.Connected).1 =
         SbsStatus.returnedEarly ∧
       (set_backend_state env (n + 1) be XBState.Connected).2.1.state =
         be.state) := by
  constructor
  · intro fuel be calls
    exact (sbs_seq_spec fuel calls be).1
  · intro env be n hbe hc
    have h1 : sbs_body env be XBState.Connected =
        SbsStep.halt (rswitch_vmq_back_connect env be).2.1
          (rswitch_vmq_back_connect env be).2.2 := by
      rcases hbe with hbe | hbe <;> simp [sbs_body, hbe, hc]
    have hne : be.state ≠ XBState.Connected := by
      rcases hbe with hbe | hbe <;> simp [hbe]
    constructor
    · simp [set_backend_state, hne, h1]
    · simp [set_backend_state, hne, h1, connect_state_preserved]

/-- Witness for C1: a connect-then-close call sequence from InitWait follows
the table, and a failing rx bind makes the loop stop in InitWait. -/
theorem C1_witness :
    edgeChainOk beFix.state
      (switchedStates
        (sbs_seq 4 beFix
          [(envAllOk, XBState.Connected), (envAllOk, XBState.Closed)]).2) =
      true ∧
    (set_backend_state envRxBindFail 1 beFix XBState.Connected).1 =
      SbsStatus.returnedEarly ∧
    (set_backend_state envRxBindFail 1 beFix XBState.Connected).2.1.state =
      XBState.InitWait :=
  ⟨C1_state_changes_follow_table.1 4 beFix
      [(envAllOk, XBState.Connected), (envAllOk, XBState.Closed)],
   (C1_state_changes_follow_table.2 envRxBindFail beFix 0
      (Or.inl rfl) (by decide)).1,
   (C1_state_changes_follow_table.2 envRxBindFail beFix 0
      (Or.inl rfl) (by decide)).2⟩

/-- On a (current, desired) pair with no applicable table edge the loop body
is the WARN_ON(1) default: it changes nothing and the loop goes on. -/
theorem sbs_body_no_edge (env : ConnectEnv) (be : BackInfo) (d : XBState)
    (h : hasEdge be.state d = false) (hne : be.state ≠ d) :
    sbs_body env be d = SbsStep.cont be [Event.warn] := by
  rcases hbe : be.state <;> rcases d <;> simp_all [sbs_body, hasEdge]

/-- On a (current, desired) pair with no applicable table edge,
set_backend_state burns any iteration budget warning on every iteration,
never changes the context, and never returns. -/
theorem sbs_run_no_edge (env : ConnectEnv) :
    ∀ (n : Nat) (be : BackInfo) (d : XBState),
      hasEdge be.state d = false → be.state ≠ d →
      set_backend_state env n be d =
        (SbsStatus.outOfFuel, be, List.replicate n Event.warn) := by
  intro n
  induction n with
  | zero =>
    intro be d h hne
    simp [set_backend_state]
  | succ n ih =>
    intro be d h hne
    have hb := sbs_body_no_edge env be d h hne
    simp [set_backend_state, hne, hb, ih be d h hne, List.replicate_succ]

/-- One-step unfolding of the loop when the current state differs from the
desired one. -/
theorem sbs_step_unfold (env : ConnectEnv) (n : Nat) (be : BackInfo)
    (d : XBState) (hne : be.state ≠ d) :
    set_backend_state env (n + 1) be d =
      (match sbs_body env be d with
       | SbsStep.halt b e => (SbsStatus.returnedEarly, b, e)
       | SbsStep.cont b e =>
         ((set_backend_state env n b d).1,
          (set_backend_state env n b d).2.1,
          e ++ (set_backend_state env n b d).2.2)) := by
  conv =>
    lhs
    rw [set_backend_state]
  rw [if_neg hne]

/-- From InitWait or Initialised toward Connected the loop returns within
two iterations: the connect either fails (early return) or succeeds and the
next check ends the loop. -/
theorem sbs_term_from_initwait (env : ConnectEnv) (be : BackInfo) (n : Nat)
    (hbe : be.state = XBState.InitWait ∨ be.state = XBState.Initialised) :
    (set_backend_state env (n + 2) be XBState.Connected).1 ≠
      SbsStatus.outOfFuel := by
  by_cases hc : (rswitch_vmq_back_connect env be).1 = 0 <;>
    rcases hbe with hbe | hbe <;>
      simp [set_backend_state, sbs_body, hbe, hc]

/-- From Closed toward Connected the loop returns within three iterations. -/
theorem sbs_term_from_closed (env : ConnectEnv) (be : BackInfo) (n : Nat)
    (hbe : be.state = XBState.Closed) :
    (set_backend_state env (n + 3) be XBState.Connected).1 ≠
      SbsStatus.outOfFuel := by
  have hne : be.state ≠ XBState.Connected := by simp [hbe]
  have hb : sbs_body env be XBState.Connected =
      SbsStep.cont { be with state := XBState.InitWait }
        [Event.switchState XBState.InitWait] := by
    simp [sbs_body, hbe]
  have h2 := sbs_term_from_initwait env { be with state := XBState.InitWait }
    n (Or.inl rfl)
  rw [sbs_step_unfold env (n + 2) be XBState.Connected hne, hb]
  simpa using h2

/-- From Closing toward Connected the loop returns within four iterations. -/
theorem sbs_term_from_closing (env : ConnectEnv) (be : BackInfo) (n : Nat)
    (hbe : be.state = XBState.Closing) :
    (set_backend_state env (n + 4) be XBState.Connected).1 ≠
      SbsStatus.outOfFuel := by
  have hne : be.state ≠ XBState.Connected := by simp [hbe]
  have hb : sbs_body env be XBState.Connected =
      SbsStep.cont { be with state := XBState.Closed }
        [Event.switchState XBState.Closed] := by
    simp [sbs_body, hbe]
  have h2 := sbs_term_from_closed env { be with state := XBState.Closed }
    n rfl
  rw [sbs_step_unfold env (n + 3) be XBState.Connected hne, hb]
  simpa using h2

/-- C6 counterexample: for the pair (Closed, Initialised) - current state
Closed, desired state Initialised, a pair with no applicable edge - the
driver loop does not terminate: no iteration budget makes set_backend_state
return; it hits the WARN_ON default forever instead of stopping. -/
theorem C6_counterexample :
    ¬ sbsTerminates envNeutral beClosedFix XBState.Initialised := by
  intro h
  obtain ⟨n, hn⟩ := h
  rw [sbs_run_no_edge envNeutral n beClosedFix XBState.Initialised
    (by decide) (by decide)] at hn
  exact hn rfl

/-- C6 (amended): for every (current, desired) pair drawn from the four
states the driver publishes and is asked for (InitWait, Connected, Closing,
Closed) the loop terminates within four iterations, applying the single
applicable edge per iteration; but for a pair with no applicable edge the
loop reports the mismatch (WARN) on every iteration and never changes the
published state or context - it does not stop, it spins forever. -/
theorem C6_loop_terminates_only_on_table_pairs :
    (∀ (env : ConnectEnv) (be : BackInfo) (d : XBState),
       be.state ∈ mainStates → d ∈ mainStates →
       (set_backend_state env 4 be d).1 ≠ SbsStatus.outOfFuel) ∧
    (∀ (env : ConnectEnv) (be : BackInfo) (d : XBState) (n : Nat),
       hasEdge be.state d = false → be.state ≠ d →
       set_backend_state env n be d =
         (SbsStatus.outOfFuel, be, List.replicate n Event.warn)) := by
  constructor
  · intro env be d hbe hd
    simp only [mainStates, List.mem_cons, List.not_mem_nil, or_false] at hbe hd
    rcases hd with rfl | rfl | rfl | rfl
    · -- desired InitWait
      rcases hbe with hbe | hbe | hbe | hbe <;>
        simp [set_backend_state, sbs_body, hbe]
    · -- desired Connected
      rcases hbe with hbe | hbe | hbe | hbe
      · exact sbs_term_from_initwait env be 2 (Or.inl hbe)
      · simp [set_backend_state, hbe]
      · exact sbs_term_from_closing env be 0 hbe
      · exact sbs_term_from_closed env be 1 hbe
    · -- desired Closing
      rcases hbe with hbe | hbe | hbe | hbe <;>
        simp [set_backend_state, sbs_body, hbe]
    · -- desired Closed
      rcases hbe with hbe | hbe | hbe | hbe <;>
        simp [set_backend_state, sbs_body, hbe]
  · exact fun env be d n => sbs_run_no_edge env n be d

/-- Witness for the amended C6: from Connected toward Closed the loop
returns within budget 4, and on the edgeless pair (Closed, Initialised) it
runs an arbitrary concrete budget (5) to exhaustion with only warnings. -/
theorem C6_witness :
    (set_backend_state envNeutral 4 beFixConn XBState.Closed).1 ≠
      SbsStatus.outOfFuel ∧
    set_backend_state envNeutral 5 beClosedFix XBState.Initialised =
      (SbsStatus.outOfFuel, beClosedFix, List.replicate 5 Event.warn) :=
  ⟨C6_loop_terminates_only_on_table_pairs.1 envNeutral beFixConn
      XBState.Closed (by decide) (by decide),
   C6_loop_terminates_only_on_table_pairs.2 envNeutral beClosedFix
      XBState.Initialised 5 (by decide) (by decide)⟩

theorem connect_no_unregister (env : ConnectEnv) (be : BackInfo) :
    Event.deviceUnregister ∉ (rswitch_vmq_back_connect env be).2.2 := by
  simp only [rswitch_vmq_back_connect]
  split_ifs <;> simp

theorem disconnect_no_unregister (be : BackInfo) :
    Event.deviceUnregister ∉ (rswitch_vmq_back_disconnect be).2 := by
  simp only [rswitch_vmq_back_disconnect]
  split_ifs <;> simp

/-- No loop iteration of set_backend_state unregisters the device. -/
theorem sbs_body_no_unregister (env : ConnectEnv) (be : BackInfo)
    (d : XBState) :
    match sbs_body env be d with
    | SbsStep.cont _ e => Event.deviceUnregister ∉ e
    | SbsStep.halt _ e => Event.deviceUnregister ∉ e := by
  rcases hbe : be.state <;> rcases d <;>
    simp only [sbs_body, hbe] <;>
    first
      | (simp [disconnect_no_unregister]
         done)
      | (by_cases hc : (rswitch_vmq_back_connect env be).1 = 0 <;>
          simp [hc, connect_no_unregister])

/-- set_backend_state never unregisters the device. -/
theorem sbs_run_no_unregister (env : ConnectEnv) :
    ∀ (n : Nat) (be : BackInfo) (d : XBState),
      Event.deviceUnregister ∉ (set_backend_state env n be d).2.2 := by
  intro n
  induction n with
  | zero =>
    intro be d
    simp [set_backend_state]
  | succ n ih =>
    intro be d
    by_cases hd : be.state = d
    · simp [set_backend_state, hd]
    · have hb := sbs_body_no_unregister env be d
      cases hcase : sbs_body env be d with
      | cont b e =>
        rw [hcase] at hb
        have h1 :
            set_backend_state env (n + 1) be d =
              ((set_backend_state env n b d).1,
               (set_backend_state env n b d).2.1,
               e ++ (set_backend_state env n b d).2.2) := by
          simp [set_backend_state, hd, hcase]
        rw [h1]
        simp only [List.mem_append]
        exact fun h => h.elim hb (fun h2 => ih b d h2)
      | halt b e =>
        rw [hcase] at hb
        have h1 :
            set_backend_state env (n + 1) be d =
              (SbsStatus.returnedEarly, b, e) := by
          simp [set_backend_state, hd, hcase]
        rw [h1]
        exact hb

/-- From any live state, driving toward Closed ends the loop within three
iterations with the published state at Closed. -/
theorem sbs_run_to_closed (env : ConnectEnv) (be : BackInfo) (n : Nat)
    (hbe : be.state ∈ mainStates) :
    (set_backend_state env (n + 3) be XBState.Closed).1 = SbsStatus.done ∧
    (set_backend_state env (n + 3) be XBState.Closed).2.1.state =
      XBState.Closed := by
  simp only [mainStates, List.mem_cons, List.not_mem_nil, or_false] at hbe
  rcases hbe with hbe | hbe | hbe | hbe <;>
    simp [set_backend_state, sbs_body, hbe, rswitch_vmq_back_disconnect]

/-- A loop already at its desired state returns at once, unchanged. -/
theorem sbs_run_here (env : ConnectEnv) (k : Nat) (be : BackInfo)
    (d : XBState) (h : be.state = d) :
    set_backend_state env (k + 1) be d = (SbsStatus.done, be, []) := by
  simp [set_backend_state, h]

/-- C8 counterexample: a frontend state the dispatch switch does not
recognize (here XenbusStateInitWait) while the device is not online only
produces a fatal report: no Closing/Closed transition runs and the device
is not unregistered, although an rdev is registered - against the claim
that unrecognized states lead to full unregistration. -/
theorem C8_counterexample :
    rswitch_vmq_frontend_changed envNeutral false 4 beFixConn
        XBState.InitWait =
      (SbsStatus.done, { beFixConn with frontend_state := XBState.InitWait },
       [Event.devFatal (-22)]) ∧
    beFixConn.rdev.isSome = true := by
  decide

/-- C8 (amended): when the peer announces Closed and the device is online,
only the Closing/Closed table path runs (the state is driven to Closed, no
unregister happens, rdev presence is untouched); when the peer announces
Closed while not online, or announces Unknown, the Closing/Closed path runs
and the local device is then fully unregistered (the unregister is the last
action); but a frontend state outside the recognized set (for example
InitWait or Reconfigured) is only reported as fatal: no state change and no
unregistration. -/
theorem C8_closed_online_and_unknown_handling :
    ∀ (env : ConnectEnv) (be : BackInfo) (n : Nat),
      be.state ∈ mainStates →
      (Event.deviceUnregister ∉
         (rswitch_vmq_frontend_changed env true (n + 3) be
           XBState.Closed).2.2 ∧
       (rswitch_vmq_frontend_changed env true (n + 3) be
           XBState.Closed).2.1.rdev.isSome = be.rdev.isSome ∧
       (rswitch_vmq_frontend_changed env true (n + 3) be
           XBState.Closed).2.1.state = XBState.Closed) ∧
      ((rswitch_vmq_frontend_changed env false (n + 3) be
           XBState.Closed).2.2.getLast? = some Event.deviceUnregister ∧
       (rswitch_vmq_frontend_changed env false (n + 3) be
           XBState.Closed).2.1.state = XBState.Closed) ∧
      (∀ online : Bool,
       (rswitch_vmq_frontend_changed env online (n + 3) be
           XBState.Unknown).2.2.getLast? = some Event.deviceUnregister ∧
       (rswitch_vmq_frontend_changed env online (n + 3) be
           XBState.Unknown).2.1.state = XBState.Closed) ∧
      (∀ (online : Bool) (fs : XBState),
       fs = XBState.InitWait ∨ fs = XBState.Reconfigured →
       rswitch_vmq_frontend_changed env online (n + 3) be fs =
         (SbsStatus.done, { be with frontend_state := fs },
          [Event.devFatal (-22)])) := by
  intro env be n hbe
  have hbe0 : ∀ fs : XBState,
      ({ be with frontend_state := fs } : BackInfo).state ∈ mainStates := by
    intro fs
    simpa using hbe
  refine ⟨⟨?_, ?_, ?_⟩, ⟨?_, ?_⟩, ?_, ?_⟩
  · simp only [rswitch_vmq_frontend_changed]
    exact sbs_run_no_unregister env (n + 3)
      { be with frontend_state := XBState.Closed } XBState.Closed
  · simp only [rswitch_vmq_frontend_changed]
    exact (sbs_run_spec env (n + 3)
      { be with frontend_state := XBState.Closed } XBState.Closed).2.2
  · simp only [rswitch_vmq_frontend_changed]
    exact (sbs_run_to_closed env
      { be with frontend_state := XBState.Closed } n
      (hbe0 XBState.Closed)).2
  · have hfin := (sbs_run_to_closed env
      { be with frontend_state := XBState.Closed } n
      (hbe0 XBState.Closed)).2
    simp only [rswitch_vmq_frontend_changed, Bool.false_eq_true, if_false]
    rw [sbs_run_here env (n + 2) _ XBState.Closed hfin]
    simp
  · have hfin := (sbs_run_to_closed env
      { be with frontend_state := XBState.Closed } n
      (hbe0 XBState.Closed)).2
    simp only [rswitch_vmq_frontend_changed, Bool.false_eq_true, if_false]
    rw [sbs_run_here env (n + 2) _ XBState.Closed hfin]
    exact hfin
  · intro online
    constructor
    · simp only [rswitch_vmq_frontend_changed]
      exact List.getLast?_concat _
    · simp only [rswitch_vmq_frontend_changed]
      exact (sbs_run_to_closed env
        { be with frontend_state := XBState.Unknown } n
        (hbe0 XBState.Unknown)).2
  · intro online fs hfs
    rcases hfs with rfl | rfl <;> rfl

/-- Witness for the amended C8 on the connected fixture. -/
theorem C8_witness :
    Event.deviceUnregister ∉
      (rswitch_vmq_frontend_changed envNeutral true (0 + 3) beFixConn
        XBState.Closed).2.2 ∧
    (rswitch_vmq_frontend_changed envNeutral false (0 + 3) beFixConn
        XBState.Closed).2.2.getLast? = some Event.deviceUnregister ∧
    rswitch_vmq_frontend_changed envNeutral false (0 + 3) beFixConn
        XBState.InitWait =
      (SbsStatus.done,
       { beFixConn with frontend_state := XBState.InitWait },
       [Event.devFatal (-22)]) :=
  ⟨(C8_closed_online_and_unknown_handling envNeutral beFixConn 0
      (by decide)).1.1,
   (C8_closed_online_and_unknown_handling envNeutral beFixConn 0
      (by decide)).2.1.1,
   (C8_closed_online_and_unknown_handling envNeutral beFixConn 0
      (by decide)).2.2.2 false XBState.InitWait (Or.inl rfl)⟩

/-- On the transaction path of the probe (both chains acquired, rdev
registered) the committed store, the snapshots and success are exactly those
of the transaction loop run on the two chain indices and the rdev rx chain
index. -/
theorem probe_fields_eq_txn_loop (c1 c2 : Chain) (osid ifnum : Option Nat)
    (rdev : RDev) (ndevErr : Int) (txn : Nat → TxnAttempt) (fuel : Nat) :
    (rswitch_vmq_back_probe
      { allocOk := true, privOk := true, get1 := some c1, get2 := some c2,
        osid := osid, ifnum := ifnum, ndev := some rdev, ndevErr := ndevErr,
        txn := txn } fuel).store =
      (probe_txn_loop txn (Int.ofNat c1.index) (Int.ofNat c2.index)
        (Int.ofNat rdev.rx_chain_index) 0 fuel []).2.1 ∧
    (rswitch_vmq_back_probe
      { allocOk := true, privOk := true, get1 := some c1, get2 := some c2,
        osid := osid, ifnum := ifnum, ndev := some rdev, ndevErr := ndevErr,
        txn := txn } fuel).snapshots =
      (probe_txn_loop txn (Int.ofNat c1.index) (Int.ofNat c2.index)
        (Int.ofNat rdev.rx_chain_index) 0 fuel []).2.2 ∧
    ((rswitch_vmq_back_probe
      { allocOk := true, privOk := true, get1 := some c1, get2 := some c2,
        osid := osid, ifnum := ifnum, ndev := some rdev, ndevErr := ndevErr,
        txn := txn } fuel).ret = 0 →
      (probe_txn_loop txn (Int.ofNat c1.index) (Int.ofNat c2.index)
        (Int.ofNat rdev.rx_chain_index) 0 fuel []).1 = 0) := by
  simp only [rswitch_vmq_back_probe, chainIndexOf]
  norm_num
  split_ifs with h <;> simp_all

/-- The three-key write set a committed probe transaction publishes. -/
theorem probe_txn_loop_spec (txn : Nat → TxnAttempt) (tx rx remote : Int) :
    ∀ f a : Nat,
      ((probe_txn_loop txn tx rx remote a f []).2.1 = [] ∨
       (probe_txn_loop txn tx rx remote a f []).2.1 =
         [(XsKey.txChainId, tx), (XsKey.rxChainId, rx),
          (XsKey.remoteChainId, remote)]) ∧
      (∀ t ∈ (probe_txn_loop txn tx rx remote a f []).2.2,
         t = [(XsKey.txChainId, tx), (XsKey.rxChainId, rx),
              (XsKey.remoteChainId, remote)]) ∧
      ((probe_txn_loop txn tx rx remote a f []).1 = 0 →
       (probe_txn_loop txn tx rx remote a f []).2.1 =
         [(XsKey.txChainId, tx), (XsKey.rxChainId, rx),
          (XsKey.remoteChainId, remote)]) := by
  intro f
  induction f with
  | zero =>
    intro a
    refine ⟨Or.inl rfl, by simp [probe_txn_loop], ?_⟩
    intro h
    exact absurd h (by simp [probe_txn_loop, nEAGAIN])
  | succ f ih =>
    intro a
    by_cases h1 : (txn a).startErr = 0
    · by_cases h2 : (txn a).w1 = 0
      · by_cases h3 : (txn a).w2 = 0
        · by_cases h4 : (txn a).w3 = 0
          · by_cases h5 : (txn a).endErr = 0
            · simp [probe_txn_loop, xenbus_printf, h1, h2, h3, h4, h5]
            · by_cases h6 : (txn a).endErr = nEAGAIN
              · have hrec := ih (a + 1)
                simpa [probe_txn_loop, xenbus_printf, h1, h2, h3, h4, h5, h6]
                  using hrec
              · simp [probe_txn_loop, xenbus_printf, h1, h2, h3, h4, h5, h6]
          · simp [probe_txn_loop, xenbus_printf, h1, h2, h3, h4]
        · simp [probe_txn_loop, xenbus_printf, h1, h2, h3]
      · simp [probe_txn_loop, xenbus_printf, h1, h2]
    · simp [probe_txn_loop, h1]

/-- C7: the probe publishes tx-chain-id, rx-chain-id and remote-chain-id as
one all-or-nothing transaction: the committed store always holds none or
all three of the keys, every commit makes all three visible at once, a
successful attach commits all three, and a conflict answer (-EAGAIN) from
the transaction end makes the loop redo the whole transaction from
transaction_start with nothing committed. -/
theorem C7_atomic_three_key_publish :
    (∀ (env : ProbeEnv) (fuel : Nat),
       (keysPresent (rswitch_vmq_back_probe env fuel).store = 0 ∨
        keysPresent (rswitch_vmq_back_probe env fuel).store = 3) ∧
       (∀ t ∈ (rswitch_vmq_back_probe env fuel).snapshots,
          keysPresent t = 3) ∧
       ((rswitch_vmq_back_probe env fuel).ret = 0 →
        env.ndev.isSome = true →
        keysPresent (rswitch_vmq_back_probe env fuel).store = 3)) ∧
    (∀ (txn : Nat → TxnAttempt) (tx rx remote : Int) (a f : Nat) (s : Store),
       txn a = ⟨0, 0, 0, 0, nEAGAIN⟩ →
       probe_txn_loop txn tx rx remote a (f + 1) s =
         probe_txn_loop txn tx rx remote (a + 1) f s) := by
  constructor
  · intro env fuel
    obtain ⟨allocOk, privOk, get1, get2, osid, ifnum, ndev, ndevErr, txn⟩ :=
      env
    cases allocOk <;> cases privOk <;>
      try (exact ⟨Or.inl rfl, by simp [rswitch_vmq_back_probe, keysPresent,
        hasKey], by simp [rswitch_vmq_back_probe, keysPresent, hasKey]⟩)
    cases get1 <;> cases get2 <;>
      try (exact ⟨Or.inl rfl, by simp [rswitch_vmq_back_probe, keysPresent,
        hasKey], by simp [rswitch_vmq_back_probe, keysPresent, hasKey]⟩)
    case some.some c1 c2 =>
    cases ndev with
    | none =>
      exact ⟨Or.inl (by simp [rswitch_vmq_back_probe, keysPresent, hasKey]),
        by simp [rswitch_vmq_back_probe],
        by simp [rswitch_vmq_back_probe]⟩
    | some rdev =>
      have hts := probe_txn_loop_spec txn (Int.ofNat c1.index)
        (Int.ofNat c2.index) (Int.ofNat rdev.rx_chain_index) fuel 0
      have hf := probe_fields_eq_txn_loop c1 c2 osid ifnum rdev ndevErr txn
        fuel
      refine ⟨?_, ?_, ?_⟩
      · rw [hf.1]
        rcases hts.1 with h | h <;> rw [h] <;>
          simp [keysPresent, hasKey]
      · intro t htmem
        rw [hf.2.1] at htmem
        rw [hts.2.1 t htmem]
        simp [keysPresent, hasKey]
      · intro hret hnd
        rw [hf.1, hts.2.2 (hf.2.2 hret)]
        simp [keysPresent, hasKey]
  · intro txn tx rx remote a f s h
    simp [probe_txn_loop, xenbus_printf, h, nEAGAIN]

/-- Witness for C7: a fully successful probe commits all three keys, and a
first-attempt conflict makes the loop rerun the transaction as attempt 1. -/
theorem C7_witness :
    keysPresent (rswitch_vmq_back_probe envProbeOk 1).store = 3 ∧
    probe_txn_loop txnConflictFirst 1 2 9 0 (1 + 1) [] =
      probe_txn_loop txnConflictFirst 1 2 9 (0 + 1) 1 [] :=
  ⟨(C7_atomic_three_key_publish.1 envProbeOk 1).2.2 (by decide) (by decide),
   C7_atomic_three_key_publish.2 txnConflictFirst 1 2 9 0 1 [] (by decide)⟩

/-- Remove releases a present chain exactly once and an absent chain zero
times (the conditional release is a no-op for an absent chain). -/
theorem remove_put_counts (be : BackInfo) (i : Nat) :
    putCount i (rswitch_vmq_back_remove be).2 =
      chainHits be.rx_chain i + chainHits be.tx_chain i := by
  rcases hrd : be.rdev with _ | rd <;>
    rcases hrx : be.rx_chain with _ | crx <;>
      rcases htx : be.tx_chain with _ | ctx <;>
        simp [rswitch_vmq_back_remove, rswitch_vmq_back_disconnect,
          hrd, hrx, htx, putCount, chainHits, List.countP_append,
          List.countP_cons] <;>
        split_ifs <;> simp_all

/-- On the transaction path of the probe (both chains acquired, rdev
registered), a failing return carries the get/fatal/put event trace with
each chain put exactly once, and the driver-data pointer holds the failed
attachment. -/
theorem probe_txn_path_events (c1 c2 : Chain) (osid ifnum : Option Nat)
    (rdev : RDev) (ndevErr : Int) (txn : Nat → TxnAttempt) (fuel : Nat) :
    ((rswitch_vmq_back_probe
      { allocOk := true, privOk := true, get1 := some c1, get2 := some c2,
        osid := osid, ifnum := ifnum, ndev := some rdev, ndevErr := ndevErr,
        txn := txn } fuel).ret ≠ 0 →
     (rswitch_vmq_back_probe
      { allocOk := true, privOk := true, get1 := some c1, get2 := some c2,
        osid := osid, ifnum := ifnum, ndev := some rdev, ndevErr := ndevErr,
        txn := txn } fuel).events =
       [Event.gwcaGet c1.index, Event.gwcaGet c2.index,
        Event.devFatal
          (rswitch_vmq_back_probe
            { allocOk := true, privOk := true, get1 := some c1,
              get2 := some c2, osid := osid, ifnum := ifnum,
              ndev := some rdev, ndevErr := ndevErr, txn := txn } fuel).ret,
        Event.gwcaPut c2.index, Event.gwcaPut c1.index]) ∧
    (rswitch_vmq_back_probe
      { allocOk := true, privOk := true, get1 := some c1, get2 := some c2,
        osid := osid, ifnum := ifnum, ndev := some rdev, ndevErr := ndevErr,
        txn := txn } fuel).drvdata.isSome = true ∧
    ((rswitch_vmq_back_probe
      { allocOk := true, privOk := true, get1 := some c1, get2 := some c2,
        osid := osid, ifnum := ifnum, ndev := some rdev, ndevErr := ndevErr,
        txn := txn } fuel).ret = 0 →
     (rswitch_vmq_back_probe
      { allocOk := true, privOk := true, get1 := some c1, get2 := some c2,
        osid := osid, ifnum := ifnum, ndev := some rdev, ndevErr := ndevErr,
        txn := txn } fuel).events =
       [Event.gwcaGet c1.index, Event.gwcaGet c2.index,
        Event.switchState XBState.InitWait]) := by
  simp only [rswitch_vmq_back_probe, chainIndexOf, getEvents,
    probe_fail_events]
  norm_num
  split_ifs with h <;> simp_all

/-- C3 (amended): the rollback of a failing Attach is only partial. On
chain-pool exhaustion the acquired chain is released exactly as often as
acquired and nothing is reachable (drvdata not yet set). On a local-device
registration failure the error is returned with neither chain released and
with the per-device driver-data pointer retaining the failed attachment. On
a transaction failure both chains are released, but the attachment stays
reachable through driver-data and is never freed. -/
theorem C3_attach_failure_rollback_incomplete :
    (∀ (env : ProbeEnv) (fuel : Nat),
       env.allocOk = true → env.privOk = true →
       (env.get1.isNone = true ∨ env.get2.isNone = true) →
       (rswitch_vmq_back_probe env fuel).ret = -19 ∧
       (rswitch_vmq_back_probe env fuel).drvdata = none ∧
       (∀ i : Nat,
          putCount i (rswitch_vmq_back_probe env fuel).events =
            getCount i (rswitch_vmq_back_probe env fuel).events)) ∧
    (∀ (env : ProbeEnv) (fuel : Nat),
       env.allocOk = true → env.privOk = true →
       env.get1.isSome = true → env.get2.isSome = true → env.ndev = none →
       (rswitch_vmq_back_probe env fuel).ret = env.ndevErr ∧
       (rswitch_vmq_back_probe env fuel).drvdata.isSome = true ∧
       putCountAll (rswitch_vmq_back_probe env fuel).events = 0) ∧
    (∀ (env : ProbeEnv) (fuel : Nat),
       env.allocOk = true → env.privOk = true →
       env.get1.isSome = true → env.get2.isSome = true →
       env.ndev.isSome = true →
       (rswitch_vmq_back_probe env fuel).ret ≠ 0 →
       (rswitch_vmq_back_probe env fuel).drvdata.isSome = true ∧
       (∀ i : Nat,
          putCount i (rswitch_vmq_back_probe env fuel).events =
            getCount i (rswitch_vmq_back_probe env fuel).events) ∧
       Event.kfreeBe ∉ (rswitch_vmq_back_probe env fuel).events) := by
  refine ⟨?_, ?_, ?_⟩
  · intro env fuel hA hP hg
    obtain ⟨aOk, pOk, g1, g2, os, ifn, nd, ne, tx⟩ := env
    simp only at hA hP hg
    subst hA
    subst hP
    rcases g1 with _ | c1 <;> rcases g2 with _ | c2 <;>
      simp_all [rswitch_vmq_back_probe, getEvents, probe_fail_events,
        putCount, getCount, List.countP_cons, List.countP_append]
  · intro env fuel hA hP h1 h2 hnd
    obtain ⟨aOk, pOk, g1, g2, os, ifn, nd, ne, tx⟩ := env
    simp only at hA hP h1 h2 hnd
    subst hA
    subst hP
    subst hnd
    rcases g1 with _ | c1 <;> rcases g2 with _ | c2 <;> simp_all
    simp [rswitch_vmq_back_probe, getEvents, putCountAll,
      List.countP_cons, List.countP_append]
  · intro env fuel hA hP h1 h2 hnd hret
    obtain ⟨aOk, pOk, g1, g2, os, ifn, nd, ne, tx⟩ := env
    simp only at hA hP h1 h2 hnd hret
    subst hA
    subst hP
    rcases g1 with _ | c1 <;> rcases g2 with _ | c2 <;> simp_all
    rcases nd with _ | rdev <;> simp_all
    have hb := probe_txn_path_events c1 c2 os ifn rdev ne tx fuel
    refine ⟨hb.2.1, ?_, ?_⟩
    · intro i
      rw [hb.1 hret]
      simp [putCount, getCount, List.countP_cons]
      split_ifs <;> simp
    · rw [hb.1 hret]
      simp

/-- Witness for the amended C3 on the transaction-failure fixture. -/
theorem C3_witness :
    (rswitch_vmq_back_probe envTxnFail 1).drvdata.isSome = true ∧
    putCount 1 (rswitch_vmq_back_probe envTxnFail 1).events =
      getCount 1 (rswitch_vmq_back_probe envTxnFail 1).events ∧
    Event.kfreeBe ∉ (rswitch_vmq_back_probe envTxnFail 1).events :=
  ⟨(C3_attach_failure_rollback_incomplete.2.2 envTxnFail 1 (by decide)
      (by decide) (by decide) (by decide) (by decide) (by decide)).1,
   (C3_attach_failure_rollback_incomplete.2.2 envTxnFail 1 (by decide)
      (by decide) (by decide) (by decide) (by decide) (by decide)).2.1 1,
   (C3_attach_failure_rollback_incomplete.2.2 envTxnFail 1 (by decide)
      (by decide) (by decide) (by decide) (by decide) (by decide)).2.2⟩

/-- On a fully successful probe over acquired chains c1/c2 and rdev, the
driver-data pointer holds the attachment record with the two tagged chains,
the read configuration and the rdev, parked in InitWait. -/
theorem probe_success_drvdata (c1 c2 : Chain) (osid ifnum : Option Nat)
    (rdev : RDev) (ndevErr : Int) (txn : Nat → TxnAttempt) (fuel : Nat) :
    (rswitch_vmq_back_probe
      { allocOk := true, privOk := true, get1 := some c1, get2 := some c2,
        osid := osid, ifnum := ifnum, ndev := some rdev, ndevErr := ndevErr,
        txn := txn } fuel).ret = 0 →
    (rswitch_vmq_back_probe
      { allocOk := true, privOk := true, get1 := some c1, get2 := some c2,
        osid := osid, ifnum := ifnum, ndev := some rdev, ndevErr := ndevErr,
        txn := txn } fuel).drvdata =
      some
        { state := XBState.InitWait, frontend_state := XBState.Unknown,
          tx_chain := some ⟨c1.index, true, osid.getD 255⟩,
          rx_chain := some ⟨c2.index, false, osid.getD 255⟩,
          tx_evtchn := 0, rx_evtchn := 0, tx_irq := 0, rx_irq := 0,
          osid := osid.getD 255, if_num := ifnum.getD 255,
          rdev := some rdev } := by
  simp only [rswitch_vmq_back_probe, chainIndexOf, getEvents,
    probe_fail_events]
  norm_num
  split_ifs with h <;> simp_all [be_init]

/-- C4 (amended): a chain acquired by an Attach call is released exactly
once on the chain-pool-exhaustion and transaction-failure paths, and
exactly once over a successful attach-plus-remove lifetime; Remove releases
a present chain exactly once and an absent chain zero times (a no-op); but
on the device-registration-failure path the acquired chains are released
zero times - they leak. -/
theorem C4_chain_release_discipline :
    (∀ (env : ProbeEnv) (fuel : Nat),
       (rswitch_vmq_back_probe env fuel).ret ≠ 0 →
       (env.get1.isNone = true ∨ env.get2.isNone = true ∨
        env.ndev.isSome = true) →
       ∀ i : Nat,
         putCount i (rswitch_vmq_back_probe env fuel).events =
           getCount i (rswitch_vmq_back_probe env fuel).events) ∧
    (∀ (env : ProbeEnv) (fuel : Nat) (b : BackInfo),
       (rswitch_vmq_back_probe env fuel).ret = 0 →
       (rswitch_vmq_back_probe env fuel).drvdata = some b →
       ∀ i : Nat,
         putCount i ((rswitch_vmq_back_probe env fuel).events ++
             (rswitch_vmq_back_remove b).2) =
           getCount i (rswitch_vmq_back_probe env fuel).events) ∧
    (∀ (be : BackInfo) (i : Nat),
       putCount i (rswitch_vmq_back_remove be).2 =
         chainHits be.rx_chain i + chainHits be.tx_chain i) ∧
    (∀ be : BackInfo,
       be.rx_chain = none → be.tx_chain = none →
       putCountAll (rswitch_vmq_back_remove be).2 = 0) := by
  refine ⟨?_, ?_, remove_put_counts, ?_⟩
  · intro env fuel hret hor
    obtain ⟨aOk, pOk, g1, g2, os, ifn, nd, ne, tx⟩ := env
    simp only at hor
    rcases aOk with _ | _ <;> rcases pOk with _ | _ <;>
      try (intro i
           simp [rswitch_vmq_back_probe, putCount, getCount]
           done)
    rcases g1 with _ | c1 <;> rcases g2 with _ | c2 <;>
      try (intro i
           simp [rswitch_vmq_back_probe, getEvents,
             probe_fail_events, putCount, getCount, List.countP_cons,
             List.countP_append]
           done)
    rcases nd with _ | rdev
    · simp_all
    · have hb := probe_txn_path_events c1 c2 os ifn rdev ne tx fuel
      intro i
      rw [hb.1 hret]
      simp [putCount, getCount, List.countP_cons]
      split_ifs <;> simp
  · intro env fuel b hret hdrv
    obtain ⟨aOk, pOk, g1, g2, os, ifn, nd, ne, tx⟩ := env
    rcases aOk with _ | _ <;> rcases pOk with _ | _ <;>
      try (exfalso
           simp [rswitch_vmq_back_probe] at hret
           done)
    rcases g1 with _ | c1 <;> rcases g2 with _ | c2 <;>
      try (exfalso
           simp [rswitch_vmq_back_probe, getEvents, probe_fail_events]
             at hret
           done)
    rcases nd with _ | rdev
    · -- device registration "failed" with error code 0: the error return
      -- is taken with ret = 0; chains stay with the attachment and remove
      -- releases them exactly once
      simp [rswitch_vmq_back_probe, chainIndexOf, getEvents, be_init]
        at hret hdrv
      subst hdrv
      intro i
      simp [rswitch_vmq_back_probe, chainIndexOf, getEvents, be_init,
        rswitch_vmq_back_remove, rswitch_vmq_back_disconnect,
        putCount, getCount, List.countP_cons, List.countP_append]
      split_ifs <;> simp
    · have hb := probe_txn_path_events c1 c2 os ifn rdev ne tx fuel
      have hd := probe_success_drvdata c1 c2 os ifn rdev ne tx fuel hret
      rw [hd] at hdrv
      have hbe : b =
          { state := XBState.InitWait, frontend_state := XBState.Unknown,
            tx_chain := some ⟨c1.index, true, os.getD 255⟩,
            rx_chain := some ⟨c2.index, false, os.getD 255⟩,
            tx_evtchn := 0, rx_evtchn := 0, tx_irq := 0, rx_irq := 0,
            osid := os.getD 255, if_num := ifn.getD 255,
            rdev := some rdev } :=
        (Option.some.inj hdrv).symm
      subst hbe
      intro i
      rw [hb.2.2 hret]
      simp [rswitch_vmq_back_remove, rswitch_vmq_back_disconnect,
        putCount, getCount, List.countP_cons, List.countP_append]
      split_ifs <;> simp
  · intro be h1 h2
    simp [rswitch_vmq_back_remove, rswitch_vmq_back_disconnect, h1, h2,
      putCountAll, List.countP_append, List.countP_cons]
    split_ifs <;> simp [h1, h2]

/-- Witness for the amended C4: a transaction failure releases chain 1
exactly as often as it was acquired; a successful attach followed by remove
releases chain 2 exactly once; removing a chainless context performs no
release. -/
theorem C4_witness :
    putCount 1 (rswitch_vmq_back_probe envTxnFail 1).events =
      getCount 1 (rswitch_vmq_back_probe envTxnFail 1).events ∧
    putCount 2 ((rswitch_vmq_back_probe envProbeOk 1).events ++
        (rswitch_vmq_back_remove beFix).2) =
      getCount 2 (rswitch_vmq_back_probe envProbeOk 1).events ∧
    putCountAll (rswitch_vmq_back_remove be_init).2 = 0 :=
  ⟨C4_chain_release_discipline.1 envTxnFail 1 (by decide)
      (Or.inr (Or.inr (by decide))) 1,
   C4_chain_release_discipline.2.1 envProbeOk 1 beFix (by decide)
      (by decide) 2,
   C4_chain_release_discipline.2.2.2 be_init rfl rfl⟩

end RswitchXenback
